import Mathlib

/-!
Verification of the dataset-resolution and caching logic of
`src/xgi/readwrite/xgi_data.py` (functions `load_xgi_data`,
`download_xgi_data` and the shared helper `_request_from_xgi_data`).

Modelling choices, faithful to the source:
* JSON documents are modelled by the inductive `Json`.  Every file access in
  the source goes through the `json` module (`json.load` on read,
  `json.dump` on write), so the local filesystem is modelled at the value
  level: a file stores the parsed JSON value.  A write followed by a read
  recovers exactly the written value, which is the `json.dump`/`json.load`
  round-trip of the source.
* The network (`requests.get(url).json()`) is an oracle
  `net : String → Option Json`; `none` models a transport or JSON-decode
  failure, whose Python exception propagates uncaught
  (`Err.remoteUnavailable`).
* Effects are made explicit in a `Trace`: `warnings` records calls of
  `warnings.warn`, `printed` the lines sent to stdout by `print`, and
  `netCalls` the URLs passed to `requests.get`, in order.
* Exceptions are modelled by `Except Err`.  `Err.datasetNotFound` is the
  `XGIError("Must choose a valid dataset name!")` raise;
  `Err.typeError` stands for the uncaught Python `TypeError`/`KeyError`
  that a malformed index entry (`index[key]["url"]` on a non-object entry,
  a missing `"url"` field, or a non-string URL) would produce.  The remote
  index endpoint returns a JSON object (a mapping), and the embedding of
  `key not in index` follows the Python `dict` semantics for that case; a
  non-object index response is mapped to `Err.typeError` as well.
* The filesystem is threaded through every function, including
  `_request_from_xgi_data`, which performs no file operation and therefore
  returns it unchanged by construction; this lets frame properties be
  stated directly.
* Python string case-mapping (`str.lower` / `str.upper`) is Unicode full
  case mapping, under which a character may map to several (`str.upper`
  sends 'ß' to "SS").  The model (`strLower` / `strUpper` below) is exact
  on ASCII and on 'ß'; all other non-ASCII characters, none of which occur
  in this development, are left fixed.  On ASCII strings both maps agree
  with Lean's `String.toLower` / `String.toUpper`.
-/

/-- JSON values, the shape of everything the `json` module parses or dumps. -/
inductive Json where
  | null : Json
  | bool : Bool → Json
  | num : Int → Json
  | str : String → Json
  | arr : List Json → Json
  | obj : List (String × Json) → Json
deriving Repr

/-- First-match association lookup, the model of Python `dict` access
(Python dict keys are unique, so first-match agrees with dict lookup). -/
def lookupStr (entries : List (String × Json)) (key : String) : Option Json :=
  match entries with
  | [] => none
  | (k, v) :: rest => if k = key then some v else lookupStr rest key

/-- The local filesystem: a path ↦ parsed-JSON-value association list. -/
abbrev FS := List (String × Json)

/-- `os.path.exists` / `json.load(open(p))` combined: the stored value at a
path, if the file exists. -/
def fsLookup (fs : FS) (p : String) : Option Json :=
  match fs with
  | [] => none
  | (q, v) :: rest => if q = p then some v else fsLookup rest p

/-- `json.dump(v, open(p, "w"))`: store `v` at `p`, overwriting any existing
file at that path. -/
def fsWrite (fs : FS) (p : String) (v : Json) : FS :=
  (p, v) :: fs.filter (fun e => ¬ e.1 = p)

/-- The network oracle: `requests.get(url).json()`; `none` is a transport or
JSON-decode failure. -/
abbrev Net := String → Option Json

/-- The effects a call performs, in order: `warnings.warn` messages, `print`
output lines, and URLs passed to `requests.get`. -/
structure Trace where
  warnings : List String
  printed : List String
  netCalls : List String
deriving Repr, DecidableEq

/-- The exceptions the source can raise (see the module docstring above). -/
inductive Err where
  | datasetNotFound
  | remoteUnavailable
  | typeError
deriving Repr, DecidableEq

/-- `str.lower()`: Python's full lower-case mapping.  Character-wise here;
exact on ASCII and on 'ß' (which is its own lower case); other non-ASCII
characters are left fixed.  Equal to Lean's `String.toLower`, see
`strLower_eq_toLower`. -/
def strLower (s : String) : String := ⟨s.data.map Char.toLower⟩

/-- The image of one character under Python's `str.upper()` full case
mapping: 'ß' upper-cases to the two-character "SS"; ASCII characters are
mapped exactly; other non-ASCII characters are left fixed. -/
def charUpperFull (c : Char) : List Char :=
  if c = 'ß' then ['S', 'S'] else [c.toUpper]

/-- `str.upper()`: Python's full upper-case mapping, the concatenation of
the per-character images (length-changing at 'ß'). -/
def strUpper (s : String) : String := ⟨(s.data.map charUpperFull).flatten⟩

/-- `os.path.join(p, f)` for the cases arising here: an absolute second
component replaces the first; otherwise the parts are joined with `/` unless
`p` is empty or already ends with `/`. -/
def pathJoin (p f : String) : String :=
  if f.data.head? = some '/' then f
  else if p = "" then f
  else if p.data.getLast? = some '/' then p ++ f
  else p ++ "/" ++ f

/-- The fixed remote index location (`index_url` in the source). -/
def index_url : String :=
  "https://gitlab.com/complexgroupinteractions/xgi-data/-/raw/main/index.json?inline=false"

/-- `_request_from_xgi_data(dataset)`: fetch the index, lower-case the name,
look it up, print the valid names and raise on a miss, otherwise fetch the
dataset URL.  The filesystem is returned unchanged: the source performs no
file operation here. -/
def _request_from_xgi_data (net : Net) (fs : FS) (dataset : String) :
    Except Err Json × FS × Trace :=
  match net index_url with
  | none => (.error .remoteUnavailable, fs, ⟨[], [], [index_url]⟩)
  | some index =>
    match index with
    | .obj entries =>
      -- key = dataset.lower(); both the membership test and the access
      -- index[key] are the single lookup below
      match lookupStr entries (strLower dataset) with
      | none =>
        (.error .datasetNotFound, fs,
          ⟨[], "Valid dataset names:" :: entries.map Prod.fst, [index_url]⟩)
      | some entry =>
        match entry with
        | .obj fields =>
          match lookupStr fields "url" with
          | some (.str url) =>
            match net url with
            | none => (.error .remoteUnavailable, fs, ⟨[], [], [index_url, url]⟩)
            | some data => (.ok data, fs, ⟨[], [], [index_url, url]⟩)
          | _ => (.error .typeError, fs, ⟨[], [], [index_url]⟩)
        | _ => (.error .typeError, fs, ⟨[], [], [index_url]⟩)
    | _ => (.error .typeError, fs, ⟨[], [], [index_url]⟩)

/-- The `warnings.warn` message emitted by `load_xgi_data` on a cache miss. -/
def missingCopyWarning (cfp : String) : String :=
  "No local copy was found at " ++ cfp ++
    ". The data is requested from the xgi-data repository instead. To download a local copy, use `download_xgi_data`."

/-- `load_xgi_data(dataset, path, read, nodetype, edgetype, max_order)`.
The external converter `convert.dict_to_hypergraph` is out of scope and is
passed in as the function `convert`. -/
def load_xgi_data {H α β : Type} (convert : Json → Option α → Option β → Option Nat → H)
    (net : Net) (fs : FS) (dataset : String) (path : String) (read : Bool)
    (nodetype : Option α) (edgetype : Option β) (max_order : Option Nat) :
    Except Err H × FS × Trace :=
  if read then
    let cfp := pathJoin path (dataset ++ ".json")
    match fsLookup fs cfp with
    | some data =>
      (.ok (convert data nodetype edgetype max_order), fs, ⟨[], [], []⟩)
    | none =>
      let (res, fs1, tr) := _request_from_xgi_data net fs dataset
      match res with
      | .error e =>
        (.error e, fs1, ⟨missingCopyWarning cfp :: tr.warnings, tr.printed, tr.netCalls⟩)
      | .ok data =>
        (.ok (convert data nodetype edgetype max_order), fs1,
          ⟨missingCopyWarning cfp :: tr.warnings, tr.printed, tr.netCalls⟩)
  else
    let (res, fs1, tr) := _request_from_xgi_data net fs dataset
    match res with
    | .error e => (.error e, fs1, tr)
    | .ok data => (.ok (convert data nodetype edgetype max_order), fs1, tr)

/-- `download_xgi_data(dataset, path)`: fetch remotely (exceptions propagate
before the destination file is opened), then dump the value to
`path/dataset.json`, overwriting any existing file. -/
def download_xgi_data (net : Net) (fs : FS) (dataset : String) (path : String) :
    Except Err Unit × FS × Trace :=
  let (res, fs1, tr) := _request_from_xgi_data net fs dataset
  match res with
  | .error e => (.error e, fs1, tr)
  | .ok jsondata =>
    (.ok (), fsWrite fs1 (pathJoin path (dataset ++ ".json")) jsondata, tr)

/-! ### Sanity and helper lemmas -/

/-- `strLower` agrees with the standard library's `String.toLower`. -/
theorem strLower_eq_toLower (s : String) : strLower s = s.toLower := by
  simp [strLower, String.toLower, String.map_eq]

/-- Flattening singleton images is an ordinary map. -/
theorem flatten_map_singleton {α β : Type} (f : α → β) (l : List α) :
    (l.map (fun a => [f a])).flatten = l.map f := by
  induction l with
  | nil => rfl
  | cons a t ih => simp [ih]

/-- On ASCII strings `strUpper` agrees with the standard library's
`String.toUpper` (in general it does not: 'ß' upper-cases to "SS"). -/
theorem strUpper_eq_toUpper_of_ascii (s : String)
    (h : ∀ c ∈ s.data, c.toNat ≤ 127) : strUpper s = s.toUpper := by
  have hmap : s.data.map charUpperFull = s.data.map (fun c => [c.toUpper]) := by
    apply List.map_congr_left
    intro c hc
    have : ¬ c = 'ß' := by
      intro hcs
      have := h c hc
      rw [hcs] at this
      exact absurd this (by decide)
    simp [charUpperFull, this]
  simp [strUpper, String.toUpper, String.map_eq, hmap, flatten_map_singleton]

/-- ASCII case-folding: lower-casing after upper-casing is lower-casing. -/
theorem char_toLower_toUpper (c : Char) : c.toUpper.toLower = c.toLower := by
  simp only [Char.toUpper, Char.toLower, Char.toNat]
  split
  · rename_i h
    obtain ⟨h1, h2⟩ := h
    have hv : (c.val.toNat - 32).isValidChar := by
      left
      omega
    have ht : (Char.ofNat (c.val.toNat - 32)).toNat = c.val.toNat - 32 := by
      rw [Char.ofNat, dif_pos hv]
      rfl
    rw [Char.toNat] at ht
    rw [ht]
    rw [if_pos (by omega)]
    have h32 : c.val.toNat - 32 + 32 = c.val.toNat := by omega
    rw [h32]
    rw [if_neg (by omega)]
    exact Char.ofNat_toNat c
  · rfl

/-- For ASCII strings, lower-casing after upper-casing is lower-casing —
the key fact behind case-insensitive index lookup.  It fails for general
Unicode strings: `strLower (strUpper "straße") = "strasse" ≠ "straße"`. -/
theorem strLower_strUpper_of_ascii (s : String)
    (h : ∀ c ∈ s.data, c.toNat ≤ 127) : strLower (strUpper s) = strLower s := by
  have hmap : s.data.map charUpperFull = s.data.map (fun c => [c.toUpper]) := by
    apply List.map_congr_left
    intro c hc
    have : ¬ c = 'ß' := by
      intro hcs
      have := h c hc
      rw [hcs] at this
      exact absurd this (by decide)
    simp [charUpperFull, this]
  simp only [strLower, strUpper, hmap, flatten_map_singleton, List.map_map]
  congr 1
  exact List.map_congr_left (fun c _ => char_toLower_toUpper c)

/-- A write is visible to a subsequent lookup at the same path. -/
theorem fsLookup_fsWrite_self (fs : FS) (p : String) (v : Json) :
    fsLookup (fsWrite fs p v) p = some v := by
  simp [fsLookup, fsWrite]

/-- The remote-fetch helper performs no file operation. -/
theorem request_fs_unchanged (net : Net) (fs : FS) (dataset : String) :
    (_request_from_xgi_data net fs dataset).2.1 = fs := by
  unfold _request_from_xgi_data
  repeat' split
  all_goals rfl

/-- Every call of the remote-fetch helper starts with the index fetch. -/
theorem request_netCalls_head (net : Net) (fs : FS) (dataset : String) :
    (_request_from_xgi_data net fs dataset).2.2.netCalls.head? = some index_url := by
  unfold _request_from_xgi_data
  repeat' split
  all_goals rfl

/-! ### Concrete data for witnesses -/

/-- A dataset URL used by the concrete witnesses. -/
def sampleUrl : String := "https://example.org/email-enron.json"

/-- A one-entry index, as the remote index endpoint serves it. -/
def sampleIndex : List (String × Json) :=
  [("email-enron", Json.obj [("url", Json.str sampleUrl)])]

/-- A dataset payload used by the concrete witnesses. -/
def sampleData : Json := Json.arr [Json.num 1, Json.num 2]

/-- A network oracle serving `sampleIndex` and `sampleData`. -/
def sampleNet : Net := fun u =>
  if u = index_url then some (Json.obj sampleIndex)
  else if u = sampleUrl then some sampleData
  else none

/-- A converter instance (the external converter is opaque to this
component, so the identity-shaped instance suffices for witnesses). -/
def idConvert : Json → Option Unit → Option Unit → Option Nat → Json :=
  fun j _ _ _ => j

/-! ### Claims -/

/-- C1: for every dataset name absent (after lower-casing) from the fetched
index, the remote-fetch helper fails with the dataset-not-found error and
before failing prints the header line followed by exactly the index's key
list; it emits no warning, performs only the single index fetch, and leaves
the filesystem unchanged. -/
theorem request_absent_fails_and_reports_keys
    (net : Net) (fs : FS) (dataset : String) (entries : List (String × Json))
    (hidx : net index_url = some (Json.obj entries))
    (habs : lookupStr entries (strLower dataset) = none) :
    _request_from_xgi_data net fs dataset =
      (.error .datasetNotFound, fs,
        ⟨[], "Valid dataset names:" :: entries.map Prod.fst, [index_url]⟩) := by
  simp [_request_from_xgi_data, hidx, habs]

/-- Witness for C1 at the concrete name `"foo"`, absent from `sampleIndex`. -/
theorem request_absent_fails_and_reports_keys_witness :
    sampleNet index_url = some (Json.obj sampleIndex) ∧
    lookupStr sampleIndex (strLower "foo") = none ∧
    _request_from_xgi_data sampleNet [] "foo" =
      (.error .datasetNotFound, [],
        ⟨[], "Valid dataset names:" :: sampleIndex.map Prod.fst, [index_url]⟩) :=
  ⟨rfl, rfl, request_absent_fails_and_reports_keys sampleNet [] "foo" sampleIndex rfl rfl⟩

/-- C2: with `read = true` and a cache file present at
`path/dataset.json`, `load_xgi_data` returns the conversion of the cached
value, touches no file, emits no warning, prints nothing and performs no
network call at all. -/
theorem load_cache_hit_no_network {H α β : Type}
    (convert : Json → Option α → Option β → Option Nat → H)
    (net : Net) (fs : FS) (dataset path : String)
    (nodetype : Option α) (edgetype : Option β) (max_order : Option Nat)
    (data : Json)
    (h : fsLookup fs (pathJoin path (dataset ++ ".json")) = some data) :
    load_xgi_data convert net fs dataset path true nodetype edgetype max_order =
      (.ok (convert data nodetype edgetype max_order), fs, ⟨[], [], []⟩) := by
  simp [load_xgi_data, h]

/-- Witness for C2: a cached copy of `email-enron` is served with an empty
trace. -/
theorem load_cache_hit_no_network_witness :
    fsLookup [("email-enron.json", sampleData)]
        (pathJoin "" ("email-enron" ++ ".json")) = some sampleData ∧
    load_xgi_data idConvert sampleNet [("email-enron.json", sampleData)]
        "email-enron" "" true none none none =
      (.ok (idConvert sampleData none none none),
        [("email-enron.json", sampleData)], ⟨[], [], []⟩) :=
  ⟨rfl, load_cache_hit_no_network idConvert sampleNet
    [("email-enron.json", sampleData)] "email-enron" "" none none none
    sampleData rfl⟩

/-- A network oracle whose index is keyed by the non-ASCII name
`"straße"`. -/
def eszettNet : Net := fun u =>
  if u = index_url then
    some (Json.obj
      [("straße", Json.obj [("url", Json.str "https://example.org/strasse.json")])])
  else if u = "https://example.org/strasse.json" then some sampleData
  else none

/-- C3 counterexample: with the index keyed by `"straße"` (a name present
in the index, being its own lower case), fetching the name itself
succeeds, but fetching its upper-cased form — `"STRASSE"`, since the full
case mapping sends 'ß' to "SS" — lower-cases to `"strasse"`, misses the
index, and fails with the dataset-not-found error, so the two fetches do
not yield identical results. -/
theorem request_case_insensitive_counterexample :
    strUpper "straße" = "STRASSE" ∧
    strLower "straße" = "straße" ∧
    (_request_from_xgi_data eszettNet [] "straße").1 = .ok sampleData ∧
    (_request_from_xgi_data eszettNet [] (strUpper "straße")).1 =
      .error .datasetNotFound ∧
    (_request_from_xgi_data eszettNet [] (strUpper "straße")).1 ≠
      (_request_from_xgi_data eszettNet [] "straße").1 := by
  refine ⟨rfl, rfl, rfl, rfl, ?_⟩
  intro h
  rw [show (_request_from_xgi_data eszettNet [] (strUpper "straße")).1 =
      .error .datasetNotFound from rfl] at h
  rw [show (_request_from_xgi_data eszettNet [] "straße").1 =
      .ok sampleData from rfl] at h
  exact Except.noConfusion h

/-- C3 amended: for every dataset name consisting of ASCII characters and
present in the index under lower-casing, fetching with the name and
fetching with the upper-cased name yield identical results (same outcome,
same filesystem, same trace).  For general Unicode names this fails, since
the full case mapping need not satisfy upper-then-lower = lower (see the
counterexample above). -/
theorem request_case_insensitive_ascii
    (net : Net) (fs : FS) (dataset : String)
    (entries : List (String × Json)) (entry : Json)
    (hascii : ∀ c ∈ dataset.data, c.toNat ≤ 127)
    (_hidx : net index_url = some (Json.obj entries))
    (_hpres : lookupStr entries (strLower dataset) = some entry) :
    _request_from_xgi_data net fs (strUpper dataset) =
      _request_from_xgi_data net fs dataset := by
  unfold _request_from_xgi_data
  rw [strLower_strUpper_of_ascii dataset hascii]

/-- Witness for the amended C3 at the concrete ASCII name
`"email-enron"`. -/
theorem request_case_insensitive_ascii_witness :
    (∀ c ∈ "email-enron".data, c.toNat ≤ 127) ∧
    sampleNet index_url = some (Json.obj sampleIndex) ∧
    lookupStr sampleIndex (strLower "email-enron") =
      some (Json.obj [("url", Json.str sampleUrl)]) ∧
    _request_from_xgi_data sampleNet [] (strUpper "email-enron") =
      _request_from_xgi_data sampleNet [] "email-enron" :=
  ⟨by decide, rfl, rfl,
    request_case_insensitive_ascii sampleNet [] "email-enron" sampleIndex
      (Json.obj [("url", Json.str sampleUrl)]) (by decide) rfl rfl⟩

/-- The remote-fetch helper never emits a warning. -/
theorem request_warnings_nil (net : Net) (fs : FS) (dataset : String) :
    (_request_from_xgi_data net fs dataset).2.2.warnings = [] := by
  unfold _request_from_xgi_data
  repeat' split
  all_goals rfl

/-- A network oracle on which every request fails. -/
def failNet : Net := fun _ => none

/-- C4: downloading a dataset valid in the index and then loading it with
the cache enabled yields exactly the conversion of the originally fetched
raw dataset, with the same converter arguments. -/
theorem download_then_load_round_trip {H α β : Type}
    (convert : Json → Option α → Option β → Option Nat → H)
    (net : Net) (fs : FS) (dataset path : String)
    (nodetype : Option α) (edgetype : Option β) (max_order : Option Nat)
    (data : Json)
    (hreq : (_request_from_xgi_data net fs dataset).1 = .ok data) :
    (load_xgi_data convert net (download_xgi_data net fs dataset path).2.1
        dataset path true nodetype edgetype max_order).1 =
      .ok (convert data nodetype edgetype max_order) := by
  have hfs := request_fs_unchanged net fs dataset
  rcases hq : _request_from_xgi_data net fs dataset with ⟨r, fs1, tr⟩
  rw [hq] at hreq hfs
  change r = Except.ok data at hreq
  change fs1 = fs at hfs
  subst hreq
  subst hfs
  unfold download_xgi_data
  rw [hq]
  simp [load_xgi_data, fsLookup_fsWrite_self]

/-- Witness for C4 at the concrete name `"email-enron"`. -/
theorem download_then_load_round_trip_witness :
    (_request_from_xgi_data sampleNet [] "email-enron").1 = .ok sampleData ∧
    (load_xgi_data idConvert sampleNet
        (download_xgi_data sampleNet [] "email-enron" "").2.1
        "email-enron" "" true none none none).1 =
      .ok (idConvert sampleData none none none) :=
  ⟨rfl, download_then_load_round_trip idConvert sampleNet [] "email-enron" ""
    none none none sampleData rfl⟩

/-- C5: when the dataset name is absent from the index, `download_xgi_data`
fails with the dataset-not-found error and returns the filesystem exactly
as it was: no file is created or modified at `path/dataset.json` or
anywhere else. -/
theorem download_absent_creates_no_file
    (net : Net) (fs : FS) (dataset path : String)
    (entries : List (String × Json))
    (hidx : net index_url = some (Json.obj entries))
    (habs : lookupStr entries (strLower dataset) = none) :
    download_xgi_data net fs dataset path =
      (.error .datasetNotFound, fs,
        ⟨[], "Valid dataset names:" :: entries.map Prod.fst, [index_url]⟩) := by
  simp [download_xgi_data, _request_from_xgi_data, hidx, habs]

/-- Witness for C5: `download("foo", "/tmp")` with `"foo"` absent fails and
creates no file. -/
theorem download_absent_creates_no_file_witness :
    sampleNet index_url = some (Json.obj sampleIndex) ∧
    lookupStr sampleIndex (strLower "foo") = none ∧
    download_xgi_data sampleNet [] "foo" "/tmp" =
      (.error .datasetNotFound, [],
        ⟨[], "Valid dataset names:" :: sampleIndex.map Prod.fst, [index_url]⟩) :=
  ⟨rfl, rfl,
    download_absent_creates_no_file sampleNet [] "foo" "/tmp" sampleIndex rfl rfl⟩

/-- C6 counterexample: with the cache enabled, no cache file, and a name
absent from the successfully fetched index, `load_xgi_data` emits its
warning but performs only the index fetch — no dataset fetch follows, so
the network activity is not one index fetch followed by one dataset
fetch. -/
theorem load_cache_miss_fetch_counterexample :
    fsLookup [] (pathJoin "" ("foo" ++ ".json")) = none ∧
    (load_xgi_data idConvert sampleNet [] "foo" "" true
        none none none).2.2.warnings.length = 1 ∧
    (load_xgi_data idConvert sampleNet [] "foo" "" true
        none none none).2.2.netCalls = [index_url] ∧
    ¬ (load_xgi_data idConvert sampleNet [] "foo" "" true
        none none none).2.2.netCalls.length = 2 :=
  ⟨rfl, rfl, rfl, fun h => absurd h (by decide)⟩

/-- C6 amended: with the cache enabled and no cache file, when the remote
resolution succeeds (the index fetch answers with a mapping, the
lower-cased name is mapped to an entry carrying a URL, and the dataset GET
answers), `load_xgi_data` emits exactly one warning and performs exactly
one index fetch followed by one dataset fetch, and nothing else. -/
theorem load_cache_miss_one_warning_one_fetch {H α β : Type}
    (convert : Json → Option α → Option β → Option Nat → H)
    (net : Net) (fs : FS) (dataset path : String)
    (nodetype : Option α) (edgetype : Option β) (max_order : Option Nat)
    (entries fields : List (String × Json)) (url : String) (data : Json)
    (hmiss : fsLookup fs (pathJoin path (dataset ++ ".json")) = none)
    (hidx : net index_url = some (Json.obj entries))
    (hkey : lookupStr entries (strLower dataset) = some (Json.obj fields))
    (hurl : lookupStr fields "url" = some (Json.str url))
    (hdata : net url = some data) :
    (load_xgi_data convert net fs dataset path true
        nodetype edgetype max_order).2.2 =
      ⟨[missingCopyWarning (pathJoin path (dataset ++ ".json"))], [],
        [index_url, url]⟩ := by
  simp [load_xgi_data, _request_from_xgi_data, hmiss, hidx, hkey, hurl, hdata]

/-- Witness for the amended C6 at the concrete name `"email-enron"`. -/
theorem load_cache_miss_one_warning_one_fetch_witness :
    fsLookup [] (pathJoin "" ("email-enron" ++ ".json")) = none ∧
    (load_xgi_data idConvert sampleNet [] "email-enron" "" true
        none none none).2.2 =
      ⟨[missingCopyWarning (pathJoin "" ("email-enron" ++ ".json"))], [],
        [index_url, sampleUrl]⟩ :=
  ⟨rfl, load_cache_miss_one_warning_one_fetch idConvert sampleNet []
    "email-enron" "" none none none sampleIndex
    [("url", Json.str sampleUrl)] sampleUrl sampleData rfl rfl rfl rfl rfl⟩

/-- C7: for a name valid in the index, `download_xgi_data` succeeds and its
only filesystem effect is storing the fetched value at `path/dataset.json`;
a lookup at that path afterwards returns exactly the fetched value,
whatever file was there before (overwrite). -/
theorem download_writes_fetched_value
    (net : Net) (fs : FS) (dataset path : String)
    (entries fields : List (String × Json)) (url : String) (data : Json)
    (hidx : net index_url = some (Json.obj entries))
    (hkey : lookupStr entries (strLower dataset) = some (Json.obj fields))
    (hurl : lookupStr fields "url" = some (Json.str url))
    (hdata : net url = some data) :
    download_xgi_data net fs dataset path =
      (.ok (), fsWrite fs (pathJoin path (dataset ++ ".json")) data,
        ⟨[], [], [index_url, url]⟩) ∧
    fsLookup (download_xgi_data net fs dataset path).2.1
        (pathJoin path (dataset ++ ".json")) = some data := by
  have h1 : download_xgi_data net fs dataset path =
      (.ok (), fsWrite fs (pathJoin path (dataset ++ ".json")) data,
        ⟨[], [], [index_url, url]⟩) := by
    simp [download_xgi_data, _request_from_xgi_data, hidx, hkey, hurl, hdata]
  refine ⟨h1, ?_⟩
  rw [h1]
  exact fsLookup_fsWrite_self fs (pathJoin path (dataset ++ ".json")) data

/-- Witness for C7: downloading `"email-enron"` over a stale cache file
replaces it with the fetched value. -/
theorem download_writes_fetched_value_witness :
    download_xgi_data sampleNet [("email-enron.json", Json.null)]
        "email-enron" "" =
      (.ok (), fsWrite [("email-enron.json", Json.null)]
          (pathJoin "" ("email-enron" ++ ".json")) sampleData,
        ⟨[], [], [index_url, sampleUrl]⟩) ∧
    fsLookup (download_xgi_data sampleNet [("email-enron.json", Json.null)]
        "email-enron" "").2.1 (pathJoin "" ("email-enron" ++ ".json")) =
      some sampleData :=
  download_writes_fetched_value sampleNet [("email-enron.json", Json.null)]
    "email-enron" "" sampleIndex [("url", Json.str sampleUrl)] sampleUrl
    sampleData rfl rfl rfl rfl

/-- C8: the cache path uses the dataset name's original casing: when
`path/dataset.json` is absent, `load_xgi_data` falls back to the network
(one warning, network activity starting with the index fetch) even when a
file is present under the lower-cased name. -/
theorem load_cache_lookup_case_sensitive {H α β : Type}
    (convert : Json → Option α → Option β → Option Nat → H)
    (net : Net) (fs : FS) (dataset path : String)
    (nodetype : Option α) (edgetype : Option β) (max_order : Option Nat)
    (d : Json)
    (hmiss : fsLookup fs (pathJoin path (dataset ++ ".json")) = none)
    (_hlower : fsLookup fs (pathJoin path (strLower dataset ++ ".json")) = some d) :
    (load_xgi_data convert net fs dataset path true
        nodetype edgetype max_order).2.2.warnings =
      [missingCopyWarning (pathJoin path (dataset ++ ".json"))] ∧
    (load_xgi_data convert net fs dataset path true
        nodetype edgetype max_order).2.2.netCalls.head? = some index_url := by
  have hw := request_warnings_nil net fs dataset
  have hn := request_netCalls_head net fs dataset
  rcases hq : _request_from_xgi_data net fs dataset with ⟨r, fs1, tr⟩
  rw [hq] at hw hn
  change tr.warnings = [] at hw
  change tr.netCalls.head? = some index_url at hn
  unfold load_xgi_data
  rw [hq]
  cases r <;> simp [hmiss, hw, hn]

/-- Witness for C8: only `"email-enron.json"` is cached, and loading
`"Email-Enron"` misses it and goes to the network. -/
theorem load_cache_lookup_case_sensitive_witness :
    fsLookup [("email-enron.json", sampleData)]
        (pathJoin "" ("Email-Enron" ++ ".json")) = none ∧
    fsLookup [("email-enron.json", sampleData)]
        (pathJoin "" (strLower "Email-Enron" ++ ".json")) = some sampleData ∧
    ((load_xgi_data idConvert sampleNet [("email-enron.json", sampleData)]
        "Email-Enron" "" true none none none).2.2.warnings =
      [missingCopyWarning (pathJoin "" ("Email-Enron" ++ ".json"))] ∧
    (load_xgi_data idConvert sampleNet [("email-enron.json", sampleData)]
        "Email-Enron" "" true none none none).2.2.netCalls.head? =
      some index_url) :=
  ⟨rfl, rfl, load_cache_lookup_case_sensitive idConvert sampleNet
    [("email-enron.json", sampleData)] "Email-Enron" "" none none none
    sampleData rfl rfl⟩

/-- C9: whenever `download_xgi_data` fails — index fetch failure, name
lookup failure, malformed index entry, or dataset fetch failure — the
returned filesystem is exactly the input one: the destination file is
opened only after the remote fetch has fully succeeded. -/
theorem download_failure_leaves_fs_unchanged
    (net : Net) (fs : FS) (dataset path : String) (e : Err)
    (h : (download_xgi_data net fs dataset path).1 = .error e) :
    (download_xgi_data net fs dataset path).2.1 = fs := by
  have hfs := request_fs_unchanged net fs dataset
  rcases hq : _request_from_xgi_data net fs dataset with ⟨r, fs1, tr⟩
  rw [hq] at hfs
  change fs1 = fs at hfs
  unfold download_xgi_data at h ⊢
  rw [hq] at h ⊢
  cases r with
  | error e2 => simpa using hfs
  | ok v => simp at h

/-- Witness for C9: with the network down, a pre-existing file survives a
failed download byte-for-byte. -/
theorem download_failure_leaves_fs_unchanged_witness :
    (download_xgi_data failNet [("x.json", Json.null)] "foo" "").1 =
      .error .remoteUnavailable ∧
    (download_xgi_data failNet [("x.json", Json.null)] "foo" "").2.1 =
      [("x.json", Json.null)] :=
  ⟨rfl, download_failure_leaves_fs_unchanged failNet [("x.json", Json.null)]
    "foo" "" .remoteUnavailable rfl⟩

/-- C10: on a cache hit `load_xgi_data` never consults the index and cannot
fail with the dataset-not-found error: even for a name absent from the
remote index it returns the conversion of the cached file's contents. -/
theorem load_cache_hit_ignores_index {H α β : Type}
    (convert : Json → Option α → Option β → Option Nat → H)
    (net : Net) (fs : FS) (dataset path : String)
    (nodetype : Option α) (edgetype : Option β) (max_order : Option Nat)
    (entries : List (String × Json)) (d : Json)
    (_hidx : net index_url = some (Json.obj entries))
    (_habs : lookupStr entries (strLower dataset) = none)
    (hhit : fsLookup fs (pathJoin path (dataset ++ ".json")) = some d) :
    (load_xgi_data convert net fs dataset path true
        nodetype edgetype max_order).1 =
      .ok (convert d nodetype edgetype max_order) := by
  simp [load_xgi_data, hhit]

/-- Witness for C10: `"ghost"` is absent from `sampleIndex`, yet its cached
copy loads successfully. -/
theorem load_cache_hit_ignores_index_witness :
    sampleNet index_url = some (Json.obj sampleIndex) ∧
    lookupStr sampleIndex (strLower "ghost") = none ∧
    fsLookup [("ghost.json", sampleData)]
        (pathJoin "" ("ghost" ++ ".json")) = some sampleData ∧
    (load_xgi_data idConvert sampleNet [("ghost.json", sampleData)]
        "ghost" "" true none none none).1 =
      .ok (idConvert sampleData none none none) :=
  ⟨rfl, rfl, rfl, load_cache_hit_ignores_index idConvert sampleNet
    [("ghost.json", sampleData)] "ghost" "" none none none sampleIndex
    sampleData rfl rfl rfl⟩
